import Mathlib

/-!
Shallow embedding of the Authorization-Go token service
(src/handlers/handlers.go, src/middleware/auth.go, src/unnamed/part_000
= client/, src/models/models.go, src/utils/password.go).

Modelling conventions, fixed once here:
* Time is Unix seconds as `Int` (jwt.NumericDate has second precision by
  default); each handler run reads a single clock value `now`, matching a
  run in which the clock does not advance between the `time.Now()` calls.
* The HMAC of golang-jwt is idealized: a signature is the pair of the MAC
  key and the signed content, so two signatures agree exactly when key and
  content agree (ideal MAC: no forgeries, no collisions).
* A wire token is either a decoded JWS (header algorithm, claims,
  signature) or a `malformed` string (anything jwt.ParseWithClaims answers
  ErrTokenMalformed for: not three dot-separated segments, or undecodable
  segments).  The compact JWS serialization is injective in the decoded
  fields, so the byte-for-byte token comparisons of the Go code are
  modeled as equality of the decoded data.  The raw wire string of a
  decoded JWS is carried separately where its length matters (the Go code
  slices `tokenString[:10]`, which panics on strings shorter than 10
  bytes; every real compact JWS is far longer than 10 bytes).
* The remote identity store is a map from queried username to the outcome
  of the HTTP exchange of client.GetUser.  bcrypt is idealized as an
  injective one-way map.
-/

namespace AuthGo

/-- Fields of handlers.AppContext read by the token code: the process-wide
secret key, the configured signing algorithm name, and the token TTL in
seconds (main.go sets algorithm "HS256" and TTL 7 days). -/
structure AppCtx where
  secretKey : String
  algorithm : String
  tokenTTL : Int
deriving DecidableEq

/-- Idealized symmetric signature over a JWS signing input: determined
exactly by the MAC key, the header algorithm and the payload claims. -/
structure Sig where
  key : String
  alg : String
  sub : String
  ngy : Int
  iat : Int
  exp : Int
deriving DecidableEq

/-- handlers.Claims: Username (json "sub"), AgencyID (json "ngy"), and the
registered IssuedAt / ExpiresAt claims, in Unix seconds. -/
structure ClaimsData where
  username : String
  agencyID : Int
  iat : Int
  expiresAt : Int
deriving DecidableEq

/-- A wire token as decoded by jwt.ParseWithClaims: `malformed` stands for
any string that is not three dot-separated decodable segments (carrying
the raw wire string), `jws` for a decoded header/payload/signature. -/
inductive Token
  | malformed (raw : String)
  | jws (alg : String) (sub : String) (ngy : Int) (iat : Int) (exp : Int) (sig : Sig)
deriving DecidableEq

/-- Subject (Username) carried by a decoded token; empty for malformed. -/
def tokenSub : Token → String
  | .malformed _ => ""
  | .jws _ u _ _ _ _ => u

/-- handlers.createToken (lines 35-58): claims with IssuedAt = now and
ExpiresAt = now + TTL, signed with ctx.Algorithm under ctx.SecretKey.
HMAC signing with a string key never fails, so this is total. -/
def createToken (ctx : AppCtx) (now : Int) (username : String) (agencyID : Int) : Token :=
  Token.jws ctx.algorithm username agencyID now (now + ctx.tokenTTL)
    (Sig.mk ctx.secretKey ctx.algorithm username agencyID now (now + ctx.tokenTTL))

/-- Errors of jwt.ParseWithClaims as invoked by parseAndValidateToken:
malformed input, keyfunc rejection of the declared algorithm
("некорректный алгоритм подписи"), invalid signature, or rejection by the
default registered-claims validator (ErrTokenExpired: valid requires
now strictly before ExpiresAt). -/
inductive ParseErr
  | malformedToken
  | badAlg
  | badSignature
  | expiredClaims
deriving DecidableEq

/-- Outcome of parseAndValidateToken: the first statement slices
tokenString[:10] for a debug log, which panics in Go when the string is
shorter than 10 bytes. -/
inductive POut
  | panicked
  | err (e : ParseErr)
  | ok (c : ClaimsData)
deriving DecidableEq

/-- handlers.parseAndValidateToken (lines 226-249).  Line 227 evaluates
`tokenString[:10]` before anything else (argument evaluation does not
depend on the log level), panicking for inputs shorter than 10 bytes.
Then jwt.ParseWithClaims: malformed check, keyfunc (declared algorithm
must equal ctx.Algorithm, else the keyfunc errors), signature
verification against ctx.SecretKey, and the v5 default claims validator,
which requires now to be strictly before ExpiresAt. -/
def parseAndValidateToken (ctx : AppCtx) (now : Int) (raw : String) (tok : Token) : POut :=
  if raw.utf8ByteSize < 10 then POut.panicked
  else
    match tok with
    | .malformed _ => POut.err ParseErr.malformedToken
    | .jws alg u a iat exp sig =>
      if alg ≠ ctx.algorithm then POut.err ParseErr.badAlg
      else if sig ≠ Sig.mk ctx.secretKey alg u a iat exp then POut.err ParseErr.badSignature
      else if exp ≤ now then POut.err ParseErr.expiredClaims
      else POut.ok (ClaimsData.mk u a iat exp)

/-- Errors of handlers.ValidateToken: a wrapped parse error
("некорректный токен: ..."), empty username, negative agency id, the
handler's own expiry check at line 82 ("токен истек"), a failed user
lookup ("пользователь не найден" — produced for any client.GetUser
failure), or the stored-token cross-check failure
("токен не соответствует сохраненному в БД"). -/
inductive AuthErr
  | invalidToken (e : ParseErr)
  | emptyUsername
  | negativeAgency
  | expired
  | userNotFound
  | tokenMismatch
deriving DecidableEq

/-- models.UserData as returned by the remote store: login, bcrypt
password hash, agency id, and the currently stored token string, where
`none` models the empty string (the cleared state). -/
structure UserData where
  login : String
  password : String
  agencyID : Int
  jwtToken : Option Token
deriving DecidableEq

/-- Outcome of the HTTP exchange behind client.GetUser for one username:
network failure, a non-200 status, a 200 body that fails to decode, or a
decoded 200 body. -/
inductive ApiResp
  | netErr
  | httpErr
  | badBody
  | ok (data : UserData)
deriving DecidableEq

/-- The remote identity store, as the map from queried username to the
outcome of the GET get_user_data exchange. -/
def Store := String → ApiResp

/-- Failure cases of client.GetUser. -/
inductive ClientErr
  | network
  | apiError
  | decodeError
  | notFound
deriving DecidableEq

/-- client.GetUser (src/unnamed/part_000 lines 33-76): network or non-200
or undecodable responses fail with the corresponding error; a decoded 200
body whose Login field is the empty string fails with "пользователь не
найден" (lines 70-73); otherwise the record is returned. -/
def GetUser (store : Store) (username : String) : Except ClientErr UserData :=
  match store username with
  | ApiResp.netErr => Except.error ClientErr.network
  | ApiResp.httpErr => Except.error ClientErr.apiError
  | ApiResp.badBody => Except.error ClientErr.decodeError
  | ApiResp.ok data =>
    if data.login = "" then Except.error ClientErr.notFound else Except.ok data

/-- Modelled from the spec: the remote store's update-token endpoint
("POST update-token(identity, token), overwrites the stored current
token", spec section 6); the store's own code is not under src/.  The
record at the given key, when present, gets the new token. -/
def storeUpdateToken (s : Store) (username : String) (tok : Token) : Store :=
  fun u =>
    if u = username then
      match s u with
      | ApiResp.ok d => ApiResp.ok (UserData.mk d.login d.password d.agencyID (some tok))
      | r => r
    else s u

/-- Modelled from the spec: the remote store's clear-token endpoint
("clears the stored current token", spec section 6, to the empty value);
the store's own code is not under src/.  The record at the given key,
when present, gets the empty (cleared) token field. -/
def storeDeleteToken (s : Store) (username : String) : Store :=
  fun u =>
    if u = username then
      match s u with
      | ApiResp.ok d => ApiResp.ok (UserData.mk d.login d.password d.agencyID none)
      | r => r
    else s u

/-- client.UpdateToken (src/unnamed/part_000 lines 79-104) combined with
the spec-modelled store behavior: the call succeeds (status 200) exactly
when the store has a record for the key, and then overwrites its token. -/
def clientUpdateToken (s : Store) (username : String) (tok : Token) : Except Unit Store :=
  match s username with
  | ApiResp.ok _ => Except.ok (storeUpdateToken s username tok)
  | _ => Except.error ()

/-- client.DeleteToken (src/unnamed/part_000 lines 107-138) combined with
the spec-modelled store behavior: the call succeeds exactly when the
store has a record for the key, and then clears its token field. -/
def clientDeleteToken (s : Store) (username : String) : Except Unit Store :=
  match s username with
  | ApiResp.ok _ => Except.ok (storeDeleteToken s username)
  | _ => Except.error ()

/-- Idealization of bcrypt.GenerateFromPassword as an injective one-way
map (utils.HashPassword). -/
def bcryptHash (plain : String) : String := "bcrypt$" ++ plain

/-- utils.VerifyPassword: bcrypt.CompareHashAndPassword succeeds exactly
when the stored hash is the hash of the presented plaintext. -/
def VerifyPassword (plainPassword hashedPassword : String) : Bool :=
  hashedPassword = bcryptHash plainPassword

/-- Outcome of handlers.ValidateToken, including the Go panic raised by
the `tokenString[:10]` slice inside parseAndValidateToken. -/
inductive VOutcome
  | panicked
  | err (e : AuthErr)
  | ok (c : ClaimsData)
deriving DecidableEq

/-- Result of handlers.ValidateToken together with the list of usernames
it fetched from the remote store (client.GetUser calls), in order. -/
structure VOut where
  outcome : VOutcome
  getUserCalls : List String
deriving DecidableEq

/-- handlers.ValidateToken (lines 61-103): parse and verify the token
(wrapping parse errors), reject an empty Username (line 70) or a negative
AgencyID (line 76), reject when now is strictly after ExpiresAt (line 82,
time.Now().After), fetch the user record (any GetUser failure becomes
"пользователь не найден", line 92), and require the presented token to be
byte-for-byte the stored one (line 96). -/
def ValidateToken (ctx : AppCtx) (store : Store) (now : Int) (raw : String) (tok : Token) : VOut :=
  match parseAndValidateToken ctx now raw tok with
  | POut.panicked => VOut.mk VOutcome.panicked []
  | POut.err e => VOut.mk (VOutcome.err (AuthErr.invalidToken e)) []
  | POut.ok claims =>
    if claims.username = "" then VOut.mk (VOutcome.err AuthErr.emptyUsername) []
    else if claims.agencyID < 0 then VOut.mk (VOutcome.err AuthErr.negativeAgency) []
    else if claims.expiresAt < now then VOut.mk (VOutcome.err AuthErr.expired) []
    else
      match GetUser store claims.username with
      | Except.error _ => VOut.mk (VOutcome.err AuthErr.userNotFound) [claims.username]
      | Except.ok user =>
        if user.jwtToken ≠ some tok then
          VOut.mk (VOutcome.err AuthErr.tokenMismatch) [claims.username]
        else VOut.mk (VOutcome.ok claims) [claims.username]

/-- Failure cases of the Login / CreateToken handlers (after request
binding, which is transport plumbing outside this embedding). -/
inductive LoginErr
  | userNotFound
  | wrongPassword
  | updateFailed
deriving DecidableEq

/-- Successful Login / CreateToken result: the issued token and the
remote store after the token update. -/
structure LoginOk where
  accessToken : Token
  store : Store

/-- handlers.Login (lines 117-161), after JSON binding: fetch the user
record by the request username, check the password, mint a token from the
RECORD's Login and AgencyID (line 142), and write it to the store keyed
by the REQUEST username (line 149). -/
def Login (ctx : AppCtx) (store : Store) (now : Int) (username password : String) :
    Except LoginErr LoginOk :=
  match GetUser store username with
  | Except.error _ => Except.error LoginErr.userNotFound
  | Except.ok user =>
    if ! VerifyPassword password user.password then Except.error LoginErr.wrongPassword
    else
      let token := createToken ctx now user.login user.agencyID
      match clientUpdateToken store username token with
      | Except.error _ => Except.error LoginErr.updateFailed
      | Except.ok s2 => Except.ok (LoginOk.mk token s2)

/-- handlers.CreateToken (lines 175-223), after form binding: identical
flow to Login — mint from the record's Login/AgencyID (line 204), update
keyed by the form username (line 211). -/
def CreateTokenH (ctx : AppCtx) (store : Store) (now : Int) (username password : String) :
    Except LoginErr LoginOk :=
  match GetUser store username with
  | Except.error _ => Except.error LoginErr.userNotFound
  | Except.ok user =>
    if ! VerifyPassword password user.password then Except.error LoginErr.wrongPassword
    else
      let token := createToken ctx now user.login user.agencyID
      match clientUpdateToken store username token with
      | Except.error _ => Except.error LoginErr.updateFailed
      | Except.ok s2 => Except.ok (LoginOk.mk token s2)

/-- handlers.RefreshToken (lines 290-319): username and agency id come
from the request context set by the middleware from the validated old
token; a fresh token is minted at now and written over the stored one. -/
def RefreshToken (ctx : AppCtx) (store : Store) (now : Int) (username : String) (agencyID : Int) :
    Except Unit (Token × Store) :=
  let newToken := createToken ctx now username agencyID
  match clientUpdateToken store username newToken with
  | Except.error _ => Except.error ()
  | Except.ok s2 => Except.ok (newToken, s2)

/-- handlers.Logout (lines 334-352): clears the stored token of the
context username via client.DeleteToken (the presented token string is
sent along for the store's audit; the effect is the cleared field). -/
def Logout (store : Store) (username : String) (_tokenString : String) : Except Unit Store :=
  clientDeleteToken store username

/-- middleware.AuthMiddleware lines 25-30: Go lowercases the WHOLE header
(strings.ToLower) before testing for the conventional bearer marker
(strings.HasPrefix, i.e. the first 7 bytes equal "bearer ") and trims the
7-byte marker from the LOWERCASED header (strings.TrimPrefix); with no
marker the header is used unchanged.  Lowercasing is per character
(Char.toLower agrees with Go's unicode.ToLower on ASCII), and the 7-byte
marker is ASCII, so character-wise take/drop match Go's byte slicing
whenever the marker test succeeds. -/
def extractToken (authHeader : String) : String :=
  let low := authHeader.data.map Char.toLower
  if low.take 7 = "bearer ".data then String.mk (low.drop 7)
  else authHeader

/-- Outcome of middleware.AuthMiddleware up to the ValidateToken call
(lines 17-35): empty header rejected, line 32 slices token[:10] (a Go
panic for extracted tokens shorter than 10 bytes), otherwise the gate
passes the extracted string to ValidateToken; on success lines 44-46 bind
that same string (and the validated claims) into the request context. -/
inductive GateStep
  | missingHeader
  | panicked
  | toValidate (token : String)
deriving DecidableEq

/-- middleware.AuthMiddleware (lines 15-35) up to the ValidateToken call. -/
def authMiddlewareEntry (authHeader : String) : GateStep :=
  if authHeader = "" then GateStep.missingHeader
  else
    let token := extractToken authHeader
    if token.utf8ByteSize < 10 then GateStep.panicked
    else GateStep.toValidate token

/-! Concrete scenario data for the closed instances below, in the shape of
the spec's running example: user "alice", password "pw1", agency id 7. -/

/-- A concrete deployment context (main.go: HS256, 7-day TTL). -/
def ctx0 : AppCtx := AppCtx.mk "secret0" "HS256" 604800

/-- The record of alice before any token was stored. -/
def user0 : UserData := UserData.mk "alice" (bcryptHash "pw1") 7 none

/-- A store holding only alice's record, with no current token. -/
def store0 : Store := fun u => if u = "alice" then ApiResp.ok user0 else ApiResp.netErr

/-- The token minted for alice at time 1000. -/
def tok1 : Token := createToken ctx0 1000 "alice" 7

/-- Alice's record with tok1 as the stored current token. -/
def user1 : UserData := UserData.mk "alice" (bcryptHash "pw1") 7 (some tok1)

/-- A store holding alice's record with tok1 stored. -/
def store1 : Store := fun u => if u = "alice" then ApiResp.ok user1 else ApiResp.netErr

/-- A store whose record under the key "alice" carries the Login "bob":
the lookup key and the record's own Login disagree. -/
def storeMis : Store :=
  fun u => if u = "alice" then ApiResp.ok (UserData.mk "bob" (bcryptHash "pw1") 3 none)
    else ApiResp.netErr

/-- A store whose 200 response for "carol" decodes to a record with an
empty Login field. -/
def storeE : Store :=
  fun u => if u = "carol" then ApiResp.ok (UserData.mk "" "x" 0 none) else ApiResp.netErr

/-- C1: the claim that the Request Gate passes the bearer substring
unchanged fails on the code.  For the header "Bearer ABCDEFGHIJK" the
gate passes (and would bind) the LOWERCASED string "abcdefghijk", because
middleware/auth.go line 27 trims the marker from strings.ToLower of the
whole header; only the no-marker fallback passes the header unchanged. -/
theorem c1_gate_lowercases_token :
    authMiddlewareEntry "Bearer ABCDEFGHIJK" = GateStep.toValidate "abcdefghijk" ∧
    GateStep.toValidate "abcdefghijk" ≠ GateStep.toValidate "ABCDEFGHIJK" ∧
    authMiddlewareEntry "NOPREFIX-TOKEN" = GateStep.toValidate "NOPREFIX-TOKEN" :=
  ⟨by decide, by decide, by decide⟩

/-- C7 counterexample: on the garbled 3-byte string "abc" ValidateToken
does not fail with the malformed-token error — the tokenString[:10] slice
panics first (handlers.go line 227). -/
theorem c7_counterexample :
    (ValidateToken ctx0 store0 0 "abc" (Token.malformed "abc")).outcome = VOutcome.panicked ∧
    (ValidateToken ctx0 store0 0 "abc" (Token.malformed "abc")).outcome ≠
      VOutcome.err (AuthErr.invalidToken ParseErr.malformedToken) :=
  ⟨by decide, by decide⟩

/-- C7 amended: every syntactically garbled input string of at least 10
bytes fails immediately with the (wrapped) malformed-token error, and no
remote store call is made (the GetUser call list is empty). -/
theorem c7_malformed_fails_before_store (ctx : AppCtx) (store : Store) (now : Int)
    (s : String) (hs : 10 ≤ s.utf8ByteSize) :
    ValidateToken ctx store now s (Token.malformed s) =
      VOut.mk (VOutcome.err (AuthErr.invalidToken ParseErr.malformedToken)) [] := by
  have hns : ¬ s.utf8ByteSize < 10 := by omega
  simp [ValidateToken, parseAndValidateToken, hns]

/-- Witness for c7_malformed_fails_before_store at the 14-byte garbled
string "garbagegarbage". -/
theorem c7_malformed_fails_before_store_witness :
    10 ≤ ("garbagegarbage" : String).utf8ByteSize ∧
    ValidateToken ctx0 store0 0 "garbagegarbage" (Token.malformed "garbagegarbage") =
      VOut.mk (VOutcome.err (AuthErr.invalidToken ParseErr.malformedToken)) [] :=
  ⟨by decide, c7_malformed_fails_before_store ctx0 store0 0 "garbagegarbage" (by decide)⟩

/-- C8: for every wire string shorter than 10 bytes, ValidateToken
returns no error value — it panics at the debug-log slice before any
validation and before any store call — and the gate's own slice at
middleware/auth.go line 32 panics for any extracted token shorter than
10 bytes. -/
theorem c8_short_token_panics (ctx : AppCtx) (store : Store) (now : Int)
    (raw : String) (tok : Token) (h : String)
    (hraw : raw.utf8ByteSize < 10)
    (hh : h ≠ "") (hex : (extractToken h).utf8ByteSize < 10) :
    ValidateToken ctx store now raw tok = VOut.mk VOutcome.panicked [] ∧
    authMiddlewareEntry h = GateStep.panicked := by
  constructor
  · simp [ValidateToken, parseAndValidateToken, hraw]
  · simp [authMiddlewareEntry, hh, hex]

/-- Witness for c8_short_token_panics: the empty-ish 3-byte input "abc"
and the header "Bearer x", whose extracted token "x" is 1 byte long. -/
theorem c8_short_token_panics_witness :
    ("abc" : String).utf8ByteSize < 10 ∧ ("Bearer x" : String) ≠ "" ∧
    (extractToken "Bearer x").utf8ByteSize < 10 ∧
    (ValidateToken ctx0 store0 0 "abc" (Token.malformed "abc") = VOut.mk VOutcome.panicked [] ∧
      authMiddlewareEntry "Bearer x" = GateStep.panicked) :=
  ⟨by decide, by decide, by decide,
    c8_short_token_panics ctx0 store0 0 "abc" (Token.malformed "abc") "Bearer x"
      (by decide) (by decide) (by decide)⟩

/-- C5: for a correctly signed token under the configured algorithm whose
record is on file with the matching stored token, Validate rejects with
the (wrapped) token-expired error at every instant at or after
expires-at — the golang-jwt v5 default validator requires now strictly
before ExpiresAt, so the boundary is inclusive — and succeeds at every
instant strictly before expires-at. -/
theorem c5_expiry_boundary (ctx : AppCtx) (store : Store) (now : Int)
    (raw username : String) (a iat exp : Int) (user : UserData)
    (hraw : 10 ≤ raw.utf8ByteSize) (hne : username ≠ "") (ha : 0 ≤ a)
    (hget : store username = ApiResp.ok user) (hlogin : user.login = username)
    (hstored : user.jwtToken =
      some (Token.jws ctx.algorithm username a iat exp
        (Sig.mk ctx.secretKey ctx.algorithm username a iat exp))) :
    (exp ≤ now →
      (ValidateToken ctx store now raw
        (Token.jws ctx.algorithm username a iat exp
          (Sig.mk ctx.secretKey ctx.algorithm username a iat exp))).outcome =
        VOutcome.err (AuthErr.invalidToken ParseErr.expiredClaims)) ∧
    (now < exp →
      (ValidateToken ctx store now raw
        (Token.jws ctx.algorithm username a iat exp
          (Sig.mk ctx.secretKey ctx.algorithm username a iat exp))).outcome =
        VOutcome.ok (ClaimsData.mk username a iat exp)) := by
  have hnraw : ¬ raw.utf8ByteSize < 10 := by omega
  have hna : ¬ a < 0 := by omega
  constructor
  · intro hle
    simp [ValidateToken, parseAndValidateToken, hnraw, hle]
  · intro hlt
    have h1 : ¬ exp ≤ now := by omega
    have h2 : ¬ exp < now := by omega
    simp [ValidateToken, parseAndValidateToken, GetUser, hnraw, h1, h2, hne, hna,
      hget, hlogin, hstored]

/-- Witness for c5_expiry_boundary: alice's stored token tok1
(iat 1000, exp 605800) checked at time 1000 (strictly before expiry). -/
theorem c5_expiry_boundary_witness :
    10 ≤ ("0123456789" : String).utf8ByteSize ∧ ("alice" : String) ≠ "" ∧
    (0 : Int) ≤ 7 ∧ store1 "alice" = ApiResp.ok user1 ∧ user1.login = "alice" ∧
    user1.jwtToken =
      some (Token.jws ctx0.algorithm "alice" 7 1000 605800
        (Sig.mk ctx0.secretKey ctx0.algorithm "alice" 7 1000 605800)) ∧
    ((605800 ≤ (1000 : Int) →
      (ValidateToken ctx0 store1 1000 "0123456789"
        (Token.jws ctx0.algorithm "alice" 7 1000 605800
          (Sig.mk ctx0.secretKey ctx0.algorithm "alice" 7 1000 605800))).outcome =
        VOutcome.err (AuthErr.invalidToken ParseErr.expiredClaims)) ∧
    ((1000 : Int) < 605800 →
      (ValidateToken ctx0 store1 1000 "0123456789"
        (Token.jws ctx0.algorithm "alice" 7 1000 605800
          (Sig.mk ctx0.secretKey ctx0.algorithm "alice" 7 1000 605800))).outcome =
        VOutcome.ok (ClaimsData.mk "alice" 7 1000 605800))) :=
  ⟨by decide, by decide, by decide, by decide, by decide, by decide,
    c5_expiry_boundary ctx0 store1 1000 "0123456789" "alice" 7 1000 605800 user1
      (by decide) (by decide) (by decide) (by decide) (by decide) (by decide)⟩

/-- C6: a token whose header declares an algorithm different from the
configured one, or whose signature was computed with a key different from
the process secret, is rejected by Validate (keyfunc rejection or
signature failure, wrapped), even with well-formed, unexpired claims. -/
theorem c6_wrong_alg_or_secret_rejected (ctx : AppCtx) (store : Store) (now : Int)
    (raw alg username : String) (a iat exp : Int) (sig : Sig)
    (hraw : 10 ≤ raw.utf8ByteSize)
    (hbad : alg ≠ ctx.algorithm ∨ sig.key ≠ ctx.secretKey)
    (_hne : username ≠ "") (_ha : 0 ≤ a) (_hexp : now < exp) :
    (ValidateToken ctx store now raw (Token.jws alg username a iat exp sig)).outcome =
      VOutcome.err (AuthErr.invalidToken ParseErr.badAlg) ∨
    (ValidateToken ctx store now raw (Token.jws alg username a iat exp sig)).outcome =
      VOutcome.err (AuthErr.invalidToken ParseErr.badSignature) := by
  have hnraw : ¬ raw.utf8ByteSize < 10 := by omega
  by_cases halg : alg = ctx.algorithm
  · subst halg
    rcases hbad with hb | hb
    · exact absurd rfl hb
    · right
      have hsig : sig ≠ Sig.mk ctx.secretKey ctx.algorithm username a iat exp := by
        intro hcontra
        exact hb (by rw [hcontra])
      simp [ValidateToken, parseAndValidateToken, hnraw, hsig]
  · left
    simp [ValidateToken, parseAndValidateToken, hnraw, halg]

/-- Witness for c6_wrong_alg_or_secret_rejected: a token over alice's
claims signed with the attacker key "attacker0" instead of ctx0's
secret. -/
theorem c6_wrong_alg_or_secret_rejected_witness :
    10 ≤ ("0123456789" : String).utf8ByteSize ∧
    (("HS256" : String) ≠ ctx0.algorithm ∨
      (Sig.mk "attacker0" "HS256" "alice" 7 1000 605800).key ≠ ctx0.secretKey) ∧
    ("alice" : String) ≠ "" ∧ (0 : Int) ≤ 7 ∧ (1000 : Int) < 605800 ∧
    ((ValidateToken ctx0 store1 1000 "0123456789"
        (Token.jws "HS256" "alice" 7 1000 605800
          (Sig.mk "attacker0" "HS256" "alice" 7 1000 605800))).outcome =
      VOutcome.err (AuthErr.invalidToken ParseErr.badAlg) ∨
    (ValidateToken ctx0 store1 1000 "0123456789"
        (Token.jws "HS256" "alice" 7 1000 605800
          (Sig.mk "attacker0" "HS256" "alice" 7 1000 605800))).outcome =
      VOutcome.err (AuthErr.invalidToken ParseErr.badSignature)) :=
  ⟨by decide, Or.inr (by decide), by decide, by decide, by decide,
    c6_wrong_alg_or_secret_rejected ctx0 store1 1000 "0123456789" "HS256" "alice"
      7 1000 605800 (Sig.mk "attacker0" "HS256" "alice" 7 1000 605800)
      (by decide) (Or.inr (by decide)) (by decide) (by decide) (by decide)⟩

/-- C2: for valid credentials against a store whose record at the queried
username carries that same username as its Login (and a non-negative
agency id, per the data-model invariant), Login immediately followed by
Validate on the returned token succeeds and yields the identity and
tenant id the token was issued with. -/
theorem c2_login_validate_roundtrip (ctx : AppCtx) (store : Store) (now : Int)
    (username password raw : String) (user : UserData)
    (hget : store username = ApiResp.ok user)
    (hlogin : user.login = username) (hne : username ≠ "")
    (ha : 0 ≤ user.agencyID)
    (hpw : VerifyPassword password user.password = true)
    (httl : 0 < ctx.tokenTTL)
    (hraw : 10 ≤ raw.utf8ByteSize) :
    ∃ tok store2,
      Login ctx store now username password = Except.ok (LoginOk.mk tok store2) ∧
      (ValidateToken ctx store2 now raw tok).outcome =
        VOutcome.ok (ClaimsData.mk username user.agencyID now (now + ctx.tokenTTL)) := by
  have h1 : ¬ raw.utf8ByteSize < 10 := by omega
  have h2 : ¬ now + ctx.tokenTTL ≤ now := by omega
  have h3 : ¬ user.agencyID < 0 := by omega
  have h4 : ¬ now + ctx.tokenTTL < now := by omega
  refine ⟨createToken ctx now user.login user.agencyID,
    storeUpdateToken store username (createToken ctx now user.login user.agencyID), ?_, ?_⟩
  · simp [Login, GetUser, clientUpdateToken, hget, hlogin, hne, hpw]
  · simp [ValidateToken, parseAndValidateToken, GetUser, storeUpdateToken, createToken,
      hget, hlogin, hne, h1, h2, h3, h4]

/-- Witness for c2_login_validate_roundtrip: alice logs in with "pw1"
against store0 at time 1000 and the returned token validates at once. -/
theorem c2_login_validate_roundtrip_witness :
    store0 "alice" = ApiResp.ok user0 ∧ user0.login = "alice" ∧
    ("alice" : String) ≠ "" ∧ (0 : Int) ≤ user0.agencyID ∧
    VerifyPassword "pw1" user0.password = true ∧ (0 : Int) < ctx0.tokenTTL ∧
    10 ≤ ("0123456789" : String).utf8ByteSize ∧
    (∃ tok store2,
      Login ctx0 store0 1000 "alice" "pw1" = Except.ok (LoginOk.mk tok store2) ∧
      (ValidateToken ctx0 store2 1000 "0123456789" tok).outcome =
        VOutcome.ok (ClaimsData.mk "alice" user0.agencyID 1000 (1000 + ctx0.tokenTTL))) :=
  ⟨by decide, by decide, by decide, by decide, by decide, by decide, by decide,
    c2_login_validate_roundtrip ctx0 store0 1000 "alice" "pw1" "0123456789" user0
      (by decide) (by decide) (by decide) (by decide) (by decide) (by decide) (by decide)⟩

/-- C3: Logout clears the stored token field of the identity's record to
the empty value, and afterwards EVERY Validate with a correctly signed,
unexpired token for that identity fails with the token-mismatch error. -/
theorem c3_logout_invalidates (ctx : AppCtx) (store : Store) (now2 : Int)
    (username tokenStr raw : String) (a iat exp : Int) (user : UserData)
    (hget : store username = ApiResp.ok user) (hlogin : user.login = username)
    (hne : username ≠ "") (ha : 0 ≤ a) (hexp : now2 < exp)
    (hraw : 10 ≤ raw.utf8ByteSize) :
    ∃ store2,
      Logout store username tokenStr = Except.ok store2 ∧
      store2 username = ApiResp.ok (UserData.mk user.login user.password user.agencyID none) ∧
      (ValidateToken ctx store2 now2 raw
        (Token.jws ctx.algorithm username a iat exp
          (Sig.mk ctx.secretKey ctx.algorithm username a iat exp))).outcome =
        VOutcome.err AuthErr.tokenMismatch := by
  have h1 : ¬ raw.utf8ByteSize < 10 := by omega
  have h2 : ¬ exp ≤ now2 := by omega
  have h3 : ¬ a < 0 := by omega
  have h4 : ¬ exp < now2 := by omega
  refine ⟨storeDeleteToken store username, ?_, ?_, ?_⟩
  · simp [Logout, clientDeleteToken, hget]
  · simp [storeDeleteToken, hget]
  · simp [ValidateToken, parseAndValidateToken, GetUser, storeDeleteToken,
      hget, hlogin, hne, h1, h2, h3, h4]

/-- Witness for c3_logout_invalidates: alice logs out while tok1
(iat 1000, exp 605800) is stored; re-validating tok1 at time 2000 hits
the token-mismatch rejection. -/
theorem c3_logout_invalidates_witness :
    store1 "alice" = ApiResp.ok user1 ∧ user1.login = "alice" ∧
    ("alice" : String) ≠ "" ∧ (0 : Int) ≤ 7 ∧ (2000 : Int) < 605800 ∧
    10 ≤ ("0123456789" : String).utf8ByteSize ∧
    (∃ store2,
      Logout store1 "alice" "0123456789" = Except.ok store2 ∧
      store2 "alice" = ApiResp.ok (UserData.mk user1.login user1.password user1.agencyID none) ∧
      (ValidateToken ctx0 store2 2000 "0123456789"
        (Token.jws ctx0.algorithm "alice" 7 1000 605800
          (Sig.mk ctx0.secretKey ctx0.algorithm "alice" 7 1000 605800))).outcome =
        VOutcome.err AuthErr.tokenMismatch) :=
  ⟨by decide, by decide, by decide, by decide, by decide, by decide,
    c3_logout_invalidates ctx0 store1 2000 "alice" "0123456789" "0123456789"
      7 1000 605800 user1 (by decide) (by decide) (by decide) (by decide)
      (by decide) (by decide)⟩

/-- C4 counterexample: refreshing at time 1000, the very instant tok1 was
issued, mints a byte-identical token (same claims, same key, and HMAC
signing is deterministic); after this refresh the OLD token tok1 still
validates successfully, instead of failing with a token-mismatch error as
the claim requires for EVERY refresh time before natural expiry. -/
theorem c4_counterexample :
    RefreshToken ctx0 store1 1000 "alice" 7 =
      Except.ok (tok1, storeUpdateToken store1 "alice" tok1) ∧
    (ValidateToken ctx0 (storeUpdateToken store1 "alice" tok1) 1000 "0123456789" tok1).outcome =
      VOutcome.ok (ClaimsData.mk "alice" 7 1000 605800) :=
  ⟨rfl, by decide⟩

/-- C4 amended: after a successful Refresh at an instant DIFFERENT from
the old token's issued-at instant (so the two serializations differ), the
new token passes Validate and the old token fails Validate with the
token-mismatch error, at any later instant before the respective
expiries. -/
theorem c4_refresh_supersedes (ctx : AppCtx) (store : Store)
    (now1 now2 now3 : Int) (username raw1 raw2 : String) (a : Int) (user : UserData)
    (hget : store username = ApiResp.ok user) (hlogin : user.login = username)
    (hne : username ≠ "") (ha : 0 ≤ a)
    (hdiff : now2 ≠ now1)
    (hold : now3 < now1 + ctx.tokenTTL)
    (hnew : now3 < now2 + ctx.tokenTTL)
    (hraw1 : 10 ≤ raw1.utf8ByteSize) (hraw2 : 10 ≤ raw2.utf8ByteSize) :
    ∃ store2,
      RefreshToken ctx store now2 username a =
        Except.ok (createToken ctx now2 username a, store2) ∧
      (ValidateToken ctx store2 now3 raw2 (createToken ctx now2 username a)).outcome =
        VOutcome.ok (ClaimsData.mk username a now2 (now2 + ctx.tokenTTL)) ∧
      (ValidateToken ctx store2 now3 raw1 (createToken ctx now1 username a)).outcome =
        VOutcome.err AuthErr.tokenMismatch := by
  have h1 : ¬ raw1.utf8ByteSize < 10 := by omega
  have h2 : ¬ raw2.utf8ByteSize < 10 := by omega
  have h3 : ¬ a < 0 := by omega
  have h4 : ¬ now2 + ctx.tokenTTL ≤ now3 := by omega
  have h5 : ¬ now2 + ctx.tokenTTL < now3 := by omega
  have h6 : ¬ now1 + ctx.tokenTTL ≤ now3 := by omega
  have h7 : ¬ now1 + ctx.tokenTTL < now3 := by omega
  have hneq : createToken ctx now2 username a ≠ createToken ctx now1 username a := by
    intro hcontra
    simp only [createToken] at hcontra
    injection hcontra with e1 e2 e3 e4 e5 e6
    exact hdiff e4
  refine ⟨storeUpdateToken store username (createToken ctx now2 username a), ?_, ?_, ?_⟩
  · simp [RefreshToken, clientUpdateToken, hget]
  · simp [ValidateToken, parseAndValidateToken, GetUser, storeUpdateToken, createToken,
      hget, hlogin, hne, h2, h3, h4, h5]
  · simp [ValidateToken, parseAndValidateToken, GetUser, storeUpdateToken,
      hget, hlogin, hne, h1, h3, h6, h7, hneq,
      createToken] at hneq ⊢
    simp [hneq]

/-- Witness for c4_refresh_supersedes: alice's tok1 was issued at 1000;
the refresh happens at 1001 and both tokens are checked at 1001. -/
theorem c4_refresh_supersedes_witness :
    store1 "alice" = ApiResp.ok user1 ∧ user1.login = "alice" ∧
    ("alice" : String) ≠ "" ∧ (0 : Int) ≤ 7 ∧ (1001 : Int) ≠ 1000 ∧
    (1001 : Int) < 1000 + ctx0.tokenTTL ∧ (1001 : Int) < 1001 + ctx0.tokenTTL ∧
    10 ≤ ("0123456789" : String).utf8ByteSize ∧
    (∃ store2,
      RefreshToken ctx0 store1 1001 "alice" 7 =
        Except.ok (createToken ctx0 1001 "alice" 7, store2) ∧
      (ValidateToken ctx0 store2 1001 "0123456789" (createToken ctx0 1001 "alice" 7)).outcome =
        VOutcome.ok (ClaimsData.mk "alice" 7 1001 (1001 + ctx0.tokenTTL)) ∧
      (ValidateToken ctx0 store2 1001 "0123456789" (createToken ctx0 1000 "alice" 7)).outcome =
        VOutcome.err AuthErr.tokenMismatch) :=
  ⟨by decide, by decide, by decide, by decide, by decide, by decide, by decide, by decide,
    c4_refresh_supersedes ctx0 store1 1000 1001 1001 "alice" "0123456789" "0123456789"
      7 user1 (by decide) (by decide) (by decide) (by decide) (by decide)
      (by decide) (by decide) (by decide) (by decide)⟩

/-- C9: on every successful Login and CreateToken call, the subject
embedded in the issued token is the Login field of the fetched record
(handlers.go lines 142 and 204) while the store update is keyed by the
client-supplied username (lines 149 and 211); the two coincide exactly
when the record's Login equals the queried username. -/
theorem c9_subject_from_record_key_from_request (ctx : AppCtx) (store : Store) (now : Int)
    (username password : String) (user : UserData)
    (hget : store username = ApiResp.ok user) (hlogne : user.login ≠ "")
    (hpw : VerifyPassword password user.password = true) :
    ∃ tok,
      Login ctx store now username password =
        Except.ok (LoginOk.mk tok (storeUpdateToken store username tok)) ∧
      CreateTokenH ctx store now username password =
        Except.ok (LoginOk.mk tok (storeUpdateToken store username tok)) ∧
      tokenSub tok = user.login ∧
      (tokenSub tok = username ↔ user.login = username) := by
  refine ⟨createToken ctx now user.login user.agencyID, ?_, ?_, ?_, ?_⟩
  · simp [Login, GetUser, clientUpdateToken, hget, hlogne, hpw]
  · simp [CreateTokenH, GetUser, clientUpdateToken, hget, hlogne, hpw]
  · simp [createToken, tokenSub]
  · simp [createToken, tokenSub]

/-- Witness for c9_subject_from_record_key_from_request: the record
stored under the key "alice" carries the Login "bob", so the issued
token's subject is "bob" while the store update is keyed by "alice". -/
theorem c9_subject_from_record_key_from_request_witness :
    storeMis "alice" = ApiResp.ok (UserData.mk "bob" (bcryptHash "pw1") 3 none) ∧
    (UserData.mk "bob" (bcryptHash "pw1") 3 none).login ≠ "" ∧
    VerifyPassword "pw1" (UserData.mk "bob" (bcryptHash "pw1") 3 none).password = true ∧
    (∃ tok,
      Login ctx0 storeMis 1000 "alice" "pw1" =
        Except.ok (LoginOk.mk tok (storeUpdateToken storeMis "alice" tok)) ∧
      CreateTokenH ctx0 storeMis 1000 "alice" "pw1" =
        Except.ok (LoginOk.mk tok (storeUpdateToken storeMis "alice" tok)) ∧
      tokenSub tok = (UserData.mk "bob" (bcryptHash "pw1") 3 none).login ∧
      (tokenSub tok = "alice" ↔ (UserData.mk "bob" (bcryptHash "pw1") 3 none).login = "alice")) :=
  ⟨by decide, by decide, by decide,
    c9_subject_from_record_key_from_request ctx0 storeMis 1000 "alice" "pw1"
      (UserData.mk "bob" (bcryptHash "pw1") 3 none) (by decide) (by decide) (by decide)⟩

/-- C10: among 200 responses, GetUser reports the not-found error exactly
when the decoded record's Login is the empty string; consequently Login
for such an identity fails with its not-found error, and Validate of a
correctly signed unexpired token for such an identity fails with the
user-not-found error instead of proceeding. -/
theorem c10_empty_login_not_found (ctx : AppCtx) (store : Store) (now : Int)
    (username password raw : String) (a iat exp : Int) (data : UserData)
    (hok : store username = ApiResp.ok data) :
    (GetUser store username = Except.error ClientErr.notFound ↔ data.login = "") ∧
    (data.login = "" →
      Login ctx store now username password = Except.error LoginErr.userNotFound) ∧
    (data.login = "" → username ≠ "" → 0 ≤ a → now < exp → 10 ≤ raw.utf8ByteSize →
      (ValidateToken ctx store now raw
        (Token.jws ctx.algorithm username a iat exp
          (Sig.mk ctx.secretKey ctx.algorithm username a iat exp))).outcome =
        VOutcome.err AuthErr.userNotFound) := by
  refine ⟨?_, ?_, ?_⟩
  · by_cases hl : data.login = ""
    · simp [GetUser, hok, hl]
    · simp [GetUser, hok, hl]
  · intro hl
    simp [Login, GetUser, hok, hl]
  · intro hl hne ha hlt hraw
    have h1 : ¬ raw.utf8ByteSize < 10 := by omega
    have h2 : ¬ exp ≤ now := by omega
    have h3 : ¬ a < 0 := by omega
    have h4 : ¬ exp < now := by omega
    simp [ValidateToken, parseAndValidateToken, GetUser, hok, hl, hne, h1, h2, h3, h4]

/-- Witness for c10_empty_login_not_found: the store maps "carol" to a
200 record whose Login is empty. -/
theorem c10_empty_login_not_found_witness :
    storeE "carol" = ApiResp.ok (UserData.mk "" "x" 0 none) ∧
    ((GetUser storeE "carol" = Except.error ClientErr.notFound ↔
        (UserData.mk "" "x" 0 none).login = "") ∧
    ((UserData.mk "" "x" 0 none).login = "" →
      Login ctx0 storeE 1000 "carol" "pw1" = Except.error LoginErr.userNotFound) ∧
    ((UserData.mk "" "x" 0 none).login = "" → ("carol" : String) ≠ "" → (0 : Int) ≤ 7 →
      (1000 : Int) < 605800 → 10 ≤ ("0123456789" : String).utf8ByteSize →
      (ValidateToken ctx0 storeE 1000 "0123456789"
        (Token.jws ctx0.algorithm "carol" 7 1000 605800
          (Sig.mk ctx0.secretKey ctx0.algorithm "carol" 7 1000 605800))).outcome =
        VOutcome.err AuthErr.userNotFound)) :=
  ⟨by decide,
    c10_empty_login_not_found ctx0 storeE 1000 "carol" "pw1" "0123456789"
      7 1000 605800 (UserData.mk "" "x" 0 none) (by decide)⟩

end AuthGo
